import Mathlib

/-!
Verification of the Oratify live-presentation backend.

This file gives a shallow embedding of the session-lifecycle state machine
(`app/services/session.py`), the in-memory WebSocket connection registry and
broadcast router (`app/core/websocket.py`), and the WebSocket message handlers
(`app/api/websocket.py`), together with theorems about them.

Modelling conventions:
- machine state (database rows, the registry dict) is passed explicitly;
- fallible Python functions that `raise` are embedded as `Except`-returning
  functions with a structured error type;
- the nondeterministic `secrets.choice` draws are a parameter (a stream of
  indices into the alphabet);
- timestamps are `Int` seconds; `datetime.now` is a parameter `now`;
- a Python dict with list values is embedded as a total function defaulting
  to `[]` (the code only observes the dict through `get(key, [])`-style
  accesses, so a missing key and an empty list are indistinguishable).
-/

namespace Oratify

/-! ## Data model (`app/models`, `app/schemas/session.py`) -/

/-- Session status enum (`SessionStatus` in `app/schemas/session.py`). -/
inductive SessionStatus
  | pending
  | active
  | paused
  | ended
deriving DecidableEq, Repr

/-- A slide row: id, owning presentation, position. -/
structure Slide where
  id : Nat
  presentation_id : Nat
  order_index : Nat
deriving DecidableEq, Repr

/-- A presentation row with its slides (as loaded by `selectinload`). -/
structure Presentation where
  id : Nat
  speaker_id : Nat
  slides : List Slide
deriving DecidableEq, Repr

/-- A session row (`app/models/session.py`). -/
structure Session where
  id : Nat
  presentation_id : Nat
  join_code : String
  current_slide_id : Option Nat
  status : SessionStatus
  started_at : Option Int
  ended_at : Option Int
  created_at : Int
deriving DecidableEq, Repr

/-- A participant row (`app/models/participant.py`). -/
structure Participant where
  id : Nat
  session_id : Nat
  display_name : Option String
  connection_id : Option Nat
  is_anonymous : Bool
  left_at : Option Int
deriving DecidableEq, Repr

/-- A response row (`app/models/response.py`). -/
structure Response where
  id : Nat
  session_id : Nat
  slide_id : Nat
  participant_id : Option Nat
  content : String
  is_ai_response : Bool
  created_at : Int
deriving DecidableEq, Repr

/-- Role of a WebSocket connection (`ConnectionRole` in `app/core/websocket.py`). -/
inductive ConnectionRole
  | speaker
  | audience
deriving DecidableEq, Repr

/-- An active WebSocket connection (`Connection` in `app/core/websocket.py`).
The transport handle and `connected_at` are irrelevant to the verified
properties and omitted; `connection_id` is a unique identifier. -/
structure Connection where
  connection_id : Nat
  role : ConnectionRole
  participant_id : Option Nat
  display_name : Option String
deriving DecidableEq, Repr

/-- Structured errors raised (as `ValueError` / typed WS errors) by the code. -/
inductive SessionError
  | invalidTransition (current requested : SessionStatus)
  | cannotResume (current : SessionStatus)
  | slideNotInPresentation
  | presentationNotFound
  | exhaustedRetries
deriving DecidableEq, Repr

/-! ## Session lifecycle (`app/services/session.py`) -/

/-- The explicit transition table of `validate_session_status_transition`. -/
def allowed_transitions : SessionStatus → List SessionStatus
  | .pending => [.active]
  | .active => [.paused, .ended]
  | .paused => [.active, .ended]
  | .ended => []

/-- `validate_session_status_transition(current, new)`: raises unless the
transition is listed in the table. -/
def validate_session_status_transition (current new : SessionStatus) :
    Except SessionError Unit :=
  if new ∈ allowed_transitions current then .ok ()
  else .error (.invalidTransition current new)

/-- `start_session`: validates pending→active, sets status and `started_at`. -/
def start_session (now : Int) (s : Session) : Except SessionError Session :=
  match validate_session_status_transition s.status .active with
  | .error e => .error e
  | .ok _ => .ok { s with status := .active, started_at := some now }

/-- `end_session`: validates →ended, sets status and `ended_at`. -/
def end_session (now : Int) (s : Session) : Except SessionError Session :=
  match validate_session_status_transition s.status .ended with
  | .error e => .error e
  | .ok _ => .ok { s with status := .ended, ended_at := some now }

/-- `pause_session`: validates →paused, sets status only. -/
def pause_session (s : Session) : Except SessionError Session :=
  match validate_session_status_transition s.status .paused with
  | .error e => .error e
  | .ok _ => .ok { s with status := .paused }

/-- `resume_session`: only from paused; does not use the transition table. -/
def resume_session (s : Session) : Except SessionError Session :=
  if s.status ≠ SessionStatus.paused then .error (.cannotResume s.status)
  else .ok { s with status := .active }

/-- The expiry test of `cleanup_expired_sessions`: status in
{pending, active, paused} and `created_at < cutoff`. -/
def session_expired (cutoff : Int) (s : Session) : Bool :=
  (s.status = SessionStatus.pending ∨ s.status = SessionStatus.active ∨
    s.status = SessionStatus.paused) ∧ s.created_at < cutoff

/-- `cleanup_expired_sessions(db, max_age_hours)`: force-ends every session
that has been pending/active/paused for longer than the cutoff, writing
`status = ended` and `ended_at` directly (no transition validation).
Returns the updated table and the count of sessions ended. -/
def cleanup_expired_sessions (now : Int) (max_age_hours : Int)
    (db : List Session) : List Session × Nat :=
  let cutoff := now - max_age_hours * 3600
  (db.map fun s =>
     if session_expired cutoff s then
       { s with status := .ended, ended_at := some now }
     else s,
   (db.filter (session_expired cutoff)).length)

/-- `change_current_slide(db, session, slide_id)`: requires a slide with the
given id belonging to the session's presentation; no status check at all. -/
def change_current_slide (slides : List Slide) (s : Session) (slide_id : Nat) :
    Except SessionError Session :=
  match slides.find? (fun sl =>
      sl.id == slide_id && sl.presentation_id == s.presentation_id) with
  | none => .error .slideNotInPresentation
  | some _ => .ok { s with current_slide_id := some slide_id }

/-! ## Join codes (`generate_join_code`, `generate_unique_join_code`) -/

/-- The join-code alphabet of `generate_join_code`:
`"ABCDEFGHJKMNPQRSTUVWXYZ23456789"` as a character list. -/
def alphabet : List Char :=
  "ABCDEFGHJKMNPQRSTUVWXYZ23456789".toList

/-- `generate_join_code()`: six independent draws from the alphabet.
The `secrets.choice` randomness is the parameter `choice`. -/
def generate_join_code (choice : Nat → Fin 31) : String :=
  String.mk ((List.range 6).map fun i =>
    alphabet.get (Fin.cast (by decide : (31 : Nat) = alphabet.length)
      (choice i)))

/-- `check_join_code_exists(db, join_code)`: a session with this code exists
and is not ended. -/
def check_join_code_exists (db : List Session) (code : String) : Bool :=
  db.any fun s => s.join_code == code && s.status != SessionStatus.ended

/-- The retry loop of `generate_unique_join_code`, with explicit fuel
(the source uses `for _ in range(10)`); `k` indexes the draw stream. -/
def generate_unique_join_code_from (db : List Session)
    (choices : Nat → Nat → Fin 31) (k : Nat) :
    Nat → Except SessionError String
  | 0 => .error .exhaustedRetries
  | fuel + 1 =>
    let code := generate_join_code (choices k)
    if check_join_code_exists db code then
      generate_unique_join_code_from db choices (k + 1) fuel
    else .ok code

/-- `generate_unique_join_code(db)`: at most 10 draws, first collision-free
code wins, `ValueError` after 10 misses. -/
def generate_unique_join_code (db : List Session)
    (choices : Nat → Nat → Fin 31) : Except SessionError String :=
  generate_unique_join_code_from db choices 0 10

/-- `create_session(db, presentation_id, speaker_id)`: checks ownership,
allocates a join code, picks the first slide by `order_index` (Python
`sorted`, embedded as the stable `mergeSort`), status starts `pending`. -/
def create_session (presentations : List Presentation)
    (presentation_id speaker_id : Nat) (db : List Session)
    (choices : Nat → Nat → Fin 31) (new_id : Nat) (now : Int) :
    Except SessionError Session :=
  match presentations.find? (fun p =>
      p.id == presentation_id && p.speaker_id == speaker_id) with
  | none => .error .presentationNotFound
  | some p =>
    match generate_unique_join_code db choices with
    | .error e => .error e
    | .ok join_code =>
      let sorted_slides :=
        p.slides.mergeSort fun a b => a.order_index ≤ b.order_index
      let first_slide_id := (sorted_slides.head?).map Slide.id
      .ok { id := new_id
            presentation_id := presentation_id
            join_code := join_code
            current_slide_id := first_slide_id
            status := .pending
            started_at := none
            ended_at := none
            created_at := now }

/-! ## Connection registry and broadcast router (`app/core/websocket.py`) -/

/-- Python's `str.upper()` as used for join-code normalization. -/
def upperCode (s : String) : String :=
  String.mk (s.data.map Char.toUpper)

/-- The `ConnectionManager._connections` dict: join code → connections.
A missing key is the empty list (the code reads via `get(code, [])`). -/
def Registry := String → List Connection

/-- The freshly constructed `ConnectionManager` (empty dict). -/
def emptyRegistry : Registry := fun _ => []

/-- `get_session_connections(join_code)`: dict lookup under the
upper-cased code, defaulting to `[]`. -/
def get_session_connections (reg : Registry) (join_code : String) :
    List Connection :=
  reg (upperCode join_code)

/-- `get_participant_count(join_code)`: number of audience connections. -/
def get_participant_count (reg : Registry) (join_code : String) : Nat :=
  (get_session_connections reg join_code).countP fun c =>
    c.role == ConnectionRole.audience

/-- `get_speaker_connection(join_code)`: first registered speaker, if any. -/
def get_speaker_connection (reg : Registry) (join_code : String) :
    Option Connection :=
  (get_session_connections reg join_code).find? fun c =>
    c.role == ConnectionRole.speaker

/-- Registering a connection (the registry mutation done by
`ConnectionManager.connect` and by the `handle_*_after_accept` handlers):
append under the upper-cased join code, creating the key if absent. -/
def registerConnection (reg : Registry) (join_code : String)
    (c : Connection) : Registry :=
  fun k =>
    if k = upperCode join_code then reg (upperCode join_code) ++ [c]
    else reg k

/-- The in-place list scan of `ConnectionManager.disconnect`: remove the
first connection with the given id, returning the rest and the removed one. -/
def removeFirstConnection (cid : Nat) :
    List Connection → List Connection × Option Connection
  | [] => ([], none)
  | c :: rest =>
    if c.connection_id = cid then (rest, some c)
    else
      let r := removeFirstConnection cid rest
      (c :: r.1, r.2)

/-- `ConnectionManager.disconnect(join_code, connection_id)`: remove the
first matching connection from the session's list (deleting an emptied key
is unobservable in this embedding) and return the removed connection. -/
def disconnect (reg : Registry) (join_code : String) (cid : Nat) :
    Registry × Option Connection :=
  let r := removeFirstConnection cid (reg (upperCode join_code))
  (fun k => if k = upperCode join_code then r.1 else reg k, r.2)

/-- `ConnectionManager.close_session(join_code)`: pop the whole entry,
returning the removed connections. -/
def close_session (reg : Registry) (join_code : String) :
    Registry × List Connection :=
  (fun k => if k = upperCode join_code then [] else reg k,
   reg (upperCode join_code))

/-- Outcome of a broadcast: which connection ids were delivered to and which
sends failed (and were only logged). -/
structure BroadcastOutcome where
  delivered : List Nat
  failed : List Nat
deriving DecidableEq, Repr

/-- The exclusion test of the broadcast loops: Python
`if exclude_connection_id and conn.connection_id == exclude_connection_id`. -/
def excludedConn (exclude : Option Nat) (c : Connection) : Bool :=
  match exclude with
  | some e => c.connection_id == e
  | none => false

/-- The loop body of `broadcast_to_session`: skip the excluded connection,
try to send to each remaining one, catching (logging) per-connection send
failures. `sendOk` says which transports succeed. -/
def broadcast_to_session_loop (exclude : Option Nat)
    (sendOk : Connection → Bool) : List Connection → BroadcastOutcome
  | [] => ⟨[], []⟩
  | c :: rest =>
    if excludedConn exclude c then
      broadcast_to_session_loop exclude sendOk rest
    else
      let r := broadcast_to_session_loop exclude sendOk rest
      if sendOk c then ⟨c.connection_id :: r.delivered, r.failed⟩
      else ⟨r.delivered, c.connection_id :: r.failed⟩

/-- `broadcast_to_session(join_code, message, exclude_connection_id)`. -/
def broadcast_to_session (reg : Registry) (join_code : String)
    (exclude : Option Nat) (sendOk : Connection → Bool) : BroadcastOutcome :=
  broadcast_to_session_loop exclude sendOk (get_session_connections reg join_code)

/-- The loop body of `broadcast_to_audience`: additionally skips every
non-audience connection before the exclusion test. -/
def broadcast_to_audience_loop (exclude : Option Nat)
    (sendOk : Connection → Bool) : List Connection → BroadcastOutcome
  | [] => ⟨[], []⟩
  | c :: rest =>
    if c.role != ConnectionRole.audience then
      broadcast_to_audience_loop exclude sendOk rest
    else if excludedConn exclude c then
      broadcast_to_audience_loop exclude sendOk rest
    else
      let r := broadcast_to_audience_loop exclude sendOk rest
      if sendOk c then ⟨c.connection_id :: r.delivered, r.failed⟩
      else ⟨r.delivered, c.connection_id :: r.failed⟩

/-- `broadcast_to_audience(join_code, message, exclude_connection_id)`. -/
def broadcast_to_audience (reg : Registry) (join_code : String)
    (exclude : Option Nat) (sendOk : Connection → Bool) : BroadcastOutcome :=
  broadcast_to_audience_loop exclude sendOk (get_session_connections reg join_code)

/-- `broadcast_to_speaker(join_code, message)`: the list of connections the
message is sent to — the registered speaker if there is one, else nobody
(a send failure is caught and logged there too). -/
def broadcast_to_speaker (reg : Registry) (join_code : String) :
    List Connection :=
  match get_speaker_connection reg join_code with
  | some c => [c]
  | none => []

/-! ## WebSocket gateway handlers (`app/api/websocket.py`) -/

/-- `get_session_by_join_code(db, join_code)`: lookup under the upper-cased
code (`app/services/session.py`). -/
def get_session_by_join_code (db : List Session) (join_code : String) :
    Option Session :=
  db.find? fun s => s.join_code == upperCode join_code

/-- Typed WebSocket error codes sent by the handlers. -/
inductive WSError
  | invalid_request
  | forbidden
  | session_not_active
  | speaker_already_connected
deriving DecidableEq, Repr

/-- Result of the registry-mutating part of `handle_join_speaker_after_accept`
(after token and ownership checks have passed): either the speaker slot is
taken and the registry is untouched, or the speaker connection is appended. -/
structure JoinSpeakerOutcome where
  registry : Registry
  error : Option WSError

/-- The speaker-uniqueness gate plus registration step of
`handle_join_speaker_after_accept`. -/
def handle_join_speaker_after_accept (reg : Registry) (join_code : String)
    (cid : Nat) : JoinSpeakerOutcome :=
  match get_speaker_connection reg join_code with
  | some _ => ⟨reg, some .speaker_already_connected⟩
  | none =>
    ⟨registerConnection reg join_code
      { connection_id := cid
        role := .speaker
        participant_id := none
        display_name := none }, none⟩

/-- The inbound `submit_response` payload: `message.get("slide_id")` and
`message.get("content")` (absent keys are `none`). -/
structure SubmitMessage where
  slide_id : Option Nat
  content : Option String
deriving DecidableEq, Repr

/-- Result of `handle_submit_response`: a typed error message sent back, or
the created `Response`. -/
inductive SubmitResult
  | ok (r : Response)
  | error (e : WSError)
deriving DecidableEq, Repr

/-- Full outcome of `handle_submit_response`: the result, the responses
table after the call, and the connections the `response-received`
notification was sent to. -/
structure SubmitOutcome where
  result : SubmitResult
  responses : List Response
  notified : List Connection
deriving Repr

/-- `handle_submit_response`: payload check, registered-audience check,
active-session check; on success the `Response` row is committed and the
speaker (only) is notified via `broadcast_to_speaker`. -/
def handle_submit_response (reg : Registry) (join_code : String) (cid : Nat)
    (sessions : List Session) (msg : SubmitMessage)
    (responses : List Response) (new_id : Nat) (now : Int) : SubmitOutcome :=
  match msg.slide_id, msg.content with
  | none, _ => ⟨.error .invalid_request, responses, []⟩
  | some _, none => ⟨.error .invalid_request, responses, []⟩
  | some slide_id, some content =>
    match (get_session_connections reg join_code).find? (fun c =>
        c.connection_id == cid) with
    | none => ⟨.error .forbidden, responses, []⟩
    | some conn =>
      if conn.role ≠ ConnectionRole.audience then
        ⟨.error .forbidden, responses, []⟩
      else
        match get_session_by_join_code sessions join_code with
        | none => ⟨.error .session_not_active, responses, []⟩
        | some s =>
          if s.status ≠ SessionStatus.active then
            ⟨.error .session_not_active, responses, []⟩
          else
            let r : Response :=
              { id := new_id
                session_id := s.id
                slide_id := slide_id
                participant_id := conn.participant_id
                content := content
                is_ai_response := false
                created_at := now }
            ⟨.ok r, responses ++ [r], broadcast_to_speaker reg join_code⟩

/-- `mark_participant_left(db, participant_id)`: set `left_at`, clear the
connection correlation. -/
def mark_participant_left (parts : List Participant) (pid : Nat) (now : Int) :
    List Participant :=
  parts.map fun p =>
    if p.id = pid then { p with left_at := some now, connection_id := none }
    else p

/-- A `participant-left` broadcast payload (`ParticipantLeftMessage`). -/
structure ParticipantLeftEvent where
  participant_id : Option Nat
  participant_count : Nat
deriving DecidableEq, Repr

/-- Outcome of the disconnect teardown in `websocket_session`. -/
structure TeardownOutcome where
  registry : Registry
  participants : List Participant
  events : List ParticipantLeftEvent

/-- The `finally` block of `websocket_session`: unregister the connection;
if it was an audience connection, mark its participant left and broadcast
exactly one `participant-left` with the post-removal audience count. -/
def websocket_teardown (reg : Registry) (parts : List Participant)
    (join_code : String) (cid : Nat) (now : Int) : TeardownOutcome :=
  let d := disconnect reg join_code cid
  match d.2 with
  | none => ⟨d.1, parts, []⟩
  | some removed =>
    if removed.role = ConnectionRole.audience then
      let parts' :=
        match removed.participant_id with
        | some pid => mark_participant_left parts pid now
        | none => parts
      ⟨d.1, parts',
       [{ participant_id := removed.participant_id
          participant_count := get_participant_count d.1 join_code }]⟩
    else ⟨d.1, parts, []⟩

/-! ## Reachable registry states

The registry is mutated only by audience registration (`handle_join` /
`handle_join_after_accept`), speaker registration
(`handle_join_speaker_after_accept`, gated on `get_speaker_connection`),
`disconnect`, and `close_session`. -/

/-- One registry mutation, as performed by the handlers. -/
inductive RegistryStep : Registry → Registry → Prop
  | joinAudience (reg : Registry) (join_code : String) (c : Connection)
      (h : c.role = ConnectionRole.audience) :
      RegistryStep reg (registerConnection reg join_code c)
  | joinSpeaker (reg : Registry) (join_code : String) (cid : Nat) :
      RegistryStep reg (handle_join_speaker_after_accept reg join_code cid).registry
  | disc (reg : Registry) (join_code : String) (cid : Nat) :
      RegistryStep reg (disconnect reg join_code cid).1
  | close (reg : Registry) (join_code : String) :
      RegistryStep reg (close_session reg join_code).1

/-- Registry states reachable from the freshly constructed manager. -/
inductive ReachableRegistry : Registry → Prop
  | init : ReachableRegistry emptyRegistry
  | step {reg reg' : Registry} :
      ReachableRegistry reg → RegistryStep reg reg' → ReachableRegistry reg'

/-- Number of speaker connections in a connection list. -/
def speakerCount (l : List Connection) : Nat :=
  l.countP fun c => c.role == ConnectionRole.speaker

/-! ## Concrete instances (used to exercise the theorems) -/

/-- A concrete pending session that has outlived the 24-hour cutoff. -/
def sessionPendingOld : Session :=
  { id := 1
    presentation_id := 1
    join_code := "AB2C3D"
    current_slide_id := none
    status := .pending
    started_at := none
    ended_at := none
    created_at := 0 }

/-- `sessionPendingOld` switched to active. -/
def sessionActive : Session := { sessionPendingOld with status := .active }

/-- A concrete audience connection. -/
def audienceConn1 : Connection :=
  { connection_id := 1
    role := .audience
    participant_id := some 7
    display_name := some "A" }

/-- The registry holding exactly `audienceConn1` under code `AB2C3D`. -/
def regWithAudience : Registry :=
  registerConnection emptyRegistry "AB2C3D" audienceConn1

/-- The registry after one speaker has joined code `AB2C3D`. -/
def regWithSpeaker : Registry :=
  (handle_join_speaker_after_accept emptyRegistry "AB2C3D" 1).registry

/-- Participant row 7 as it exists while `audienceConn1` is connected. -/
def participantRow7 : Participant :=
  { id := 7
    session_id := 1
    display_name := some "A"
    connection_id := some 1
    is_anonymous := false
    left_at := none }

/-- A presentation with two slides, the later-indexed one listed first. -/
def demoPresentation : Presentation :=
  { id := 3
    speaker_id := 4
    slides := [{ id := 10, presentation_id := 3, order_index := 5 },
               { id := 11, presentation_id := 3, order_index := 2 }] }

/-! ## Lifecycle lemmas -/

theorem validate_ok_iff (current new : SessionStatus) (u : Unit) :
    validate_session_status_transition current new = .ok u ↔
      new ∈ allowed_transitions current := by
  unfold validate_session_status_transition
  split <;> simp_all

theorem validate_error_of_not_mem (current new : SessionStatus)
    (h : new ∉ allowed_transitions current) :
    validate_session_status_transition current new =
      .error (.invalidTransition current new) := by
  unfold validate_session_status_transition
  simp [h]

theorem start_session_ok_iff (now : Int) (s s' : Session) :
    start_session now s = .ok s' ↔
      SessionStatus.active ∈ allowed_transitions s.status ∧
        s' = { s with status := .active, started_at := some now } := by
  unfold start_session validate_session_status_transition
  by_cases h : SessionStatus.active ∈ allowed_transitions s.status
  · simp [h, eq_comm]
  · simp [h]

theorem pause_session_ok_iff (s s' : Session) :
    pause_session s = .ok s' ↔
      SessionStatus.paused ∈ allowed_transitions s.status ∧
        s' = { s with status := .paused } := by
  unfold pause_session validate_session_status_transition
  by_cases h : SessionStatus.paused ∈ allowed_transitions s.status
  · simp [h, eq_comm]
  · simp [h]

theorem end_session_ok_iff (now : Int) (s s' : Session) :
    end_session now s = .ok s' ↔
      SessionStatus.ended ∈ allowed_transitions s.status ∧
        s' = { s with status := .ended, ended_at := some now } := by
  unfold end_session validate_session_status_transition
  by_cases h : SessionStatus.ended ∈ allowed_transitions s.status
  · simp [h, eq_comm]
  · simp [h]

theorem resume_session_ok_iff (s s' : Session) :
    resume_session s = .ok s' ↔
      s.status = .paused ∧ s' = { s with status := .active } := by
  unfold resume_session
  split
  · simp_all
  · next h =>
    simp only [ne_eq, not_not] at h
    simp [h, eq_comm]

/-- C1: the claim as stated is false: `cleanup_expired_sessions` writes the
status field and performs pending→ended — a transition outside the table —
without failing and without leaving the status unchanged. Concretely, a
pending session created at time 0 is force-ended by a cleanup at time
100000 with the default 24-hour cutoff, while the table itself rejects
pending→ended. -/
theorem C1_cleanup_bypasses_table :
    (cleanup_expired_sessions 100000 24 [sessionPendingOld]).1.map
        Session.status = [SessionStatus.ended] ∧
    (cleanup_expired_sessions 100000 24 [sessionPendingOld]).2 = 1 ∧
    validate_session_status_transition .pending .ended =
      .error (.invalidTransition .pending .ended) ∧
    sessionPendingOld.status = .pending := by
  exact ⟨by decide, by decide, rfl, rfl⟩

/-- C1 (amended): for the four lifecycle operations `start`, `pause`,
`resume`, `end`, the status only changes along a table-listed transition,
and a requested transition outside the table fails with an
`InvalidTransition` error (resume in addition rejects every non-paused
state) leaving the session unchanged; `cleanup_expired_sessions` is the
exception: it force-ends expired pending/active/paused sessions directly,
bypassing the table. -/
theorem C1_lifecycle_transitions (now : Int) (s : Session) :
    (∀ s', start_session now s = .ok s' →
       s'.status ∈ allowed_transitions s.status) ∧
    (SessionStatus.active ∉ allowed_transitions s.status →
       start_session now s = .error (.invalidTransition s.status .active)) ∧
    (∀ s', pause_session s = .ok s' →
       s'.status ∈ allowed_transitions s.status) ∧
    (SessionStatus.paused ∉ allowed_transitions s.status →
       pause_session s = .error (.invalidTransition s.status .paused)) ∧
    (∀ s', end_session now s = .ok s' →
       s'.status ∈ allowed_transitions s.status) ∧
    (SessionStatus.ended ∉ allowed_transitions s.status →
       end_session now s = .error (.invalidTransition s.status .ended)) ∧
    (∀ s', resume_session s = .ok s' →
       s'.status ∈ allowed_transitions s.status) ∧
    (s.status ≠ SessionStatus.paused →
       resume_session s = .error (.cannotResume s.status)) := by
  refine ⟨?_, ?_, ?_, ?_, ?_, ?_, ?_, ?_⟩
  · intro s' h
    rcases (start_session_ok_iff now s s').1 h with ⟨hmem, rfl⟩
    exact hmem
  · intro h
    unfold start_session
    rw [validate_error_of_not_mem s.status .active h]
  · intro s' h
    rcases (pause_session_ok_iff s s').1 h with ⟨hmem, rfl⟩
    exact hmem
  · intro h
    unfold pause_session
    rw [validate_error_of_not_mem s.status .paused h]
  · intro s' h
    rcases (end_session_ok_iff now s s').1 h with ⟨hmem, rfl⟩
    exact hmem
  · intro h
    unfold end_session
    rw [validate_error_of_not_mem s.status .ended h]
  · intro s' h
    rcases (resume_session_ok_iff s s').1 h with ⟨hp, rfl⟩
    simp [hp, allowed_transitions]
  · intro h
    unfold resume_session
    simp [h]

/-- C1 witness: the amended theorem applied to a concrete pending session —
pausing it fails with `InvalidTransition(pending, paused)`. -/
theorem C1_lifecycle_transitions_witness :
    pause_session sessionPendingOld =
      .error (.invalidTransition sessionPendingOld.status .paused) :=
  (C1_lifecycle_transitions 0 sessionPendingOld).2.2.2.1 (by decide)

/-- C3: `change_current_slide` succeeds, setting the current slide and
leaving the status untouched, exactly when the given slide belongs to the
session's presentation; when it does not, it fails with the
`SlideNotInPresentation`-style error. The session's status (terminal or
not) plays no role in either direction. -/
theorem C3_change_slide (slides : List Slide) (s : Session) (slide_id : Nat) :
    ((∃ s', change_current_slide slides s slide_id = .ok s' ∧
        s'.current_slide_id = some slide_id ∧ s'.status = s.status) ↔
      ∃ sl ∈ slides, sl.id = slide_id ∧
        sl.presentation_id = s.presentation_id) ∧
    (change_current_slide slides s slide_id =
        .error .slideNotInPresentation ↔
      ¬∃ sl ∈ slides, sl.id = slide_id ∧
        sl.presentation_id = s.presentation_id) := by
  have hfind : (∃ sl, slides.find? (fun sl =>
      sl.id == slide_id && sl.presentation_id == s.presentation_id)
        = some sl) ↔
      ∃ sl ∈ slides, sl.id = slide_id ∧
        sl.presentation_id = s.presentation_id := by
    constructor
    · rintro ⟨sl, hsl⟩
      have hmem := List.mem_of_find?_eq_some hsl
      have hp := List.find?_some hsl
      simp only [Bool.and_eq_true, beq_iff_eq] at hp
      exact ⟨sl, hmem, hp.1, hp.2⟩
    · rintro ⟨sl, hmem, h1, h2⟩
      rcases hf : slides.find? (fun sl =>
          sl.id == slide_id && sl.presentation_id == s.presentation_id) with
        _ | sl'
      · rw [List.find?_eq_none] at hf
        exact absurd (by simp [h1, h2]) (hf sl hmem)
      · exact ⟨sl', hf⟩
  constructor
  · rw [← hfind]
    unfold change_current_slide
    constructor
    · rintro ⟨s', hs', _, _⟩
      rcases hf : slides.find? (fun sl =>
          sl.id == slide_id && sl.presentation_id == s.presentation_id) with
        _ | sl'
      · simp [hf] at hs'
      · exact ⟨sl', hf⟩
    · rintro ⟨sl, hsl⟩
      rw [hsl]
      exact ⟨{ s with current_slide_id := some slide_id }, rfl, rfl, rfl⟩
  · unfold change_current_slide
    rcases hf : slides.find? (fun sl =>
        sl.id == slide_id && sl.presentation_id == s.presentation_id) with
      _ | sl'
    · rw [← hfind]
      simp [hf]
    · rw [← hfind]
      simp [hf]

/-- C4: `resume_session` succeeds (setting status to active) exactly when
the session is paused; from active, pending, or ended it fails with an
error — success is not idempotent on an already-active session. -/
theorem C4_resume_only_from_paused (s : Session) :
    ((∃ s', resume_session s = .ok s' ∧ s'.status = .active) ↔
      s.status = .paused) ∧
    (s.status ≠ .paused →
      resume_session s = .error (.cannotResume s.status)) := by
  constructor
  · constructor
    · rintro ⟨s', hs', _⟩
      exact ((resume_session_ok_iff s s').1 hs').1
    · intro h
      exact ⟨{ s with status := .active },
        (resume_session_ok_iff s _).2 ⟨h, rfl⟩, rfl⟩
  · intro h
    unfold resume_session
    simp [h]

/-- C4 witness: resuming a concrete pending session fails. -/
theorem C4_resume_witness :
    resume_session sessionPendingOld =
      .error (.cannotResume sessionPendingOld.status) :=
  (C4_resume_only_from_paused sessionPendingOld).2 (by decide)

/-! ## Response ingestion (C2, C6) -/

/-- C2: with a well-formed payload, `submit_response` succeeds — creating
and persisting exactly one `Response` row — precisely when the caller is a
registered connection whose role is audience and the session exists with
status active; in every other combination it fails with a typed error and
the responses table is unchanged. -/
theorem C2_submit_response (reg : Registry) (join_code : String) (cid : Nat)
    (sessions : List Session) (msg : SubmitMessage)
    (responses : List Response) (new_id : Nat) (now : Int)
    (slide_id : Nat) (content : String)
    (h1 : msg.slide_id = some slide_id) (h2 : msg.content = some content) :
    ((∃ r, (handle_submit_response reg join_code cid sessions msg responses
        new_id now).result = .ok r) ↔
      ((∃ c, (get_session_connections reg join_code).find?
          (fun c => c.connection_id == cid) = some c ∧
          c.role = ConnectionRole.audience) ∧
       (∃ s, get_session_by_join_code sessions join_code = some s ∧
          s.status = SessionStatus.active))) ∧
    (∀ r, (handle_submit_response reg join_code cid sessions msg responses
        new_id now).result = .ok r →
      (handle_submit_response reg join_code cid sessions msg responses
        new_id now).responses = responses ++ [r]) ∧
    (∀ e, (handle_submit_response reg join_code cid sessions msg responses
        new_id now).result = .error e →
      (handle_submit_response reg join_code cid sessions msg responses
        new_id now).responses = responses) := by
  obtain ⟨ms, mc⟩ := msg
  dsimp only at h1 h2
  subst h1
  subst h2
  unfold handle_submit_response
  rcases hc : (get_session_connections reg join_code).find?
      (fun c => c.connection_id == cid) with _ | conn
  · simp [hc]
  · by_cases hrole : conn.role = ConnectionRole.audience
    · rcases hs : get_session_by_join_code sessions join_code with _ | s
      · simp [hc, hrole, hs]
      · by_cases hst : s.status = SessionStatus.active
        · simp [hc, hrole, hs, hst]
        · simp [hc, hrole, hs, hst]
    · simp [hc, hrole]

/-- The `response-received` recipients of `broadcast_to_speaker`: exactly
the registered speaker when one exists, nobody otherwise. -/
theorem broadcast_to_speaker_spec (reg : Registry) (join_code : String) :
    (∀ c ∈ broadcast_to_speaker reg join_code,
       get_speaker_connection reg join_code = some c ∧
         c.role = ConnectionRole.speaker) ∧
    (get_speaker_connection reg join_code = none →
       broadcast_to_speaker reg join_code = []) := by
  unfold broadcast_to_speaker
  rcases hs : get_speaker_connection reg join_code with _ | c
  · simp
  · constructor
    · intro c' hc'
      simp only [List.mem_singleton] at hc'
      subst hc'
      refine ⟨rfl, ?_⟩
      unfold get_speaker_connection at hs
      simpa using List.find?_some hs
    · intro h
      exact Option.noConfusion h

/-- The notified list of `handle_submit_response` is empty or exactly the
`broadcast_to_speaker` recipients. -/
theorem handle_submit_response_notified (reg : Registry) (join_code : String)
    (cid : Nat) (sessions : List Session) (msg : SubmitMessage)
    (responses : List Response) (new_id : Nat) (now : Int) :
    (handle_submit_response reg join_code cid sessions msg responses
        new_id now).notified = [] ∨
    (handle_submit_response reg join_code cid sessions msg responses
        new_id now).notified = broadcast_to_speaker reg join_code := by
  unfold handle_submit_response
  split
  · exact Or.inl rfl
  · exact Or.inl rfl
  · split
    · exact Or.inl rfl
    · split
      · exact Or.inl rfl
      · split
        · exact Or.inl rfl
        · split
          · exact Or.inl rfl
          · exact Or.inr rfl

/-- C6: the `response-received` notification of a successful (or any)
`submit_response` call reaches only the connection registered with role
speaker for that join code — never any audience connection — and reaches
nobody when no speaker is connected. -/
theorem C6_notify_speaker_only (reg : Registry) (join_code : String)
    (cid : Nat) (sessions : List Session) (msg : SubmitMessage)
    (responses : List Response) (new_id : Nat) (now : Int) :
    (∀ c ∈ (handle_submit_response reg join_code cid sessions msg responses
        new_id now).notified,
      get_speaker_connection reg join_code = some c ∧
        c.role = ConnectionRole.speaker ∧
        c.role ≠ ConnectionRole.audience) ∧
    (get_speaker_connection reg join_code = none →
      (handle_submit_response reg join_code cid sessions msg responses
        new_id now).notified = []) := by
  rcases handle_submit_response_notified reg join_code cid sessions msg
      responses new_id now with h | h
  · rw [h]
    exact ⟨fun c hc => absurd hc (by simp), fun _ => rfl⟩
  · rw [h]
    constructor
    · intro c hc
      rcases (broadcast_to_speaker_spec reg join_code).1 c hc with ⟨hg, hr⟩
      exact ⟨hg, hr, by rw [hr]; exact fun hcon => ConnectionRole.noConfusion hcon⟩
    · exact (broadcast_to_speaker_spec reg join_code).2

/-- C6 witness: with no speaker registered, a submit attempt notifies
nobody. -/
theorem C6_notify_speaker_only_witness :
    (handle_submit_response emptyRegistry "AB2C3D" 1 []
      { slide_id := some 1, content := some "x" } [] 1 0).notified = [] :=
  (C6_notify_speaker_only emptyRegistry "AB2C3D" 1 []
    { slide_id := some 1, content := some "x" } [] 1 0).2 rfl

/-- C2 witness: a registered audience connection submitting a well-formed
payload to an active session succeeds. -/
theorem C2_submit_response_witness :
    ∃ r, (handle_submit_response regWithAudience "AB2C3D" 1 [sessionActive]
      { slide_id := some 5, content := some "hello" } [] 9 42).result
        = .ok r :=
  ((C2_submit_response regWithAudience "AB2C3D" 1 [sessionActive]
      { slide_id := some 5, content := some "hello" } [] 9 42 5 "hello"
      rfl rfl).1).2
    ⟨⟨audienceConn1, by decide, rfl⟩, ⟨sessionActive, by decide, rfl⟩⟩

/-! ## Broadcast isolation (C8) -/

theorem broadcast_to_session_loop_spec (exclude : Option Nat)
    (sendOk : Connection → Bool) (l : List Connection) :
    (broadcast_to_session_loop exclude sendOk l).delivered =
      (l.filter fun c => !excludedConn exclude c && sendOk c).map
        Connection.connection_id ∧
    (broadcast_to_session_loop exclude sendOk l).failed =
      (l.filter fun c => !excludedConn exclude c && !sendOk c).map
        Connection.connection_id := by
  induction l with
  | nil => exact ⟨rfl, rfl⟩
  | cons c rest ih =>
    by_cases he : excludedConn exclude c
    · simp [broadcast_to_session_loop, he, List.filter_cons, ih.1, ih.2]
    · by_cases hsend : sendOk c
      · simp [broadcast_to_session_loop, he, hsend, List.filter_cons,
          ih.1, ih.2]
      · simp [broadcast_to_session_loop, he, hsend, List.filter_cons,
          ih.1, ih.2]

theorem broadcast_to_audience_loop_spec (exclude : Option Nat)
    (sendOk : Connection → Bool) (l : List Connection) :
    (broadcast_to_audience_loop exclude sendOk l).delivered =
      (l.filter fun c => c.role == ConnectionRole.audience &&
        !excludedConn exclude c && sendOk c).map Connection.connection_id ∧
    (broadcast_to_audience_loop exclude sendOk l).failed =
      (l.filter fun c => c.role == ConnectionRole.audience &&
        !excludedConn exclude c && !sendOk c).map Connection.connection_id := by
  induction l with
  | nil => exact ⟨rfl, rfl⟩
  | cons c rest ih =>
    by_cases hr : c.role = ConnectionRole.audience
    · by_cases he : excludedConn exclude c
      · simp [broadcast_to_audience_loop, hr, he, List.filter_cons,
          ih.1, ih.2]
      · by_cases hsend : sendOk c
        · simp [broadcast_to_audience_loop, hr, he, hsend,
            List.filter_cons, ih.1, ih.2]
        · simp [broadcast_to_audience_loop, hr, he, hsend,
            List.filter_cons, ih.1, ih.2]
    · simp [broadcast_to_audience_loop, hr, List.filter_cons, ih.1, ih.2]

/-- C8: broadcasts are best-effort and per-connection isolated. Whatever
the pattern of per-connection send failures (`sendOk`), the session-wide
broadcast attempts delivery to exactly the non-excluded connections —
those whose sends succeed are delivered, those whose sends fail are only
recorded (logged) — and the audience broadcast does the same restricted to
audience connections; the broadcast itself always returns normally (it is
a total function), so no per-connection failure propagates to the caller. -/
theorem C8_broadcast_isolation (reg : Registry) (join_code : String)
    (exclude : Option Nat) (sendOk : Connection → Bool) :
    ((broadcast_to_session reg join_code exclude sendOk).delivered =
      ((get_session_connections reg join_code).filter fun c =>
        !excludedConn exclude c && sendOk c).map Connection.connection_id) ∧
    ((broadcast_to_session reg join_code exclude sendOk).failed =
      ((get_session_connections reg join_code).filter fun c =>
        !excludedConn exclude c && !sendOk c).map Connection.connection_id) ∧
    ((broadcast_to_audience reg join_code exclude sendOk).delivered =
      ((get_session_connections reg join_code).filter fun c =>
        c.role == ConnectionRole.audience && !excludedConn exclude c &&
          sendOk c).map Connection.connection_id) ∧
    ((broadcast_to_audience reg join_code exclude sendOk).failed =
      ((get_session_connections reg join_code).filter fun c =>
        c.role == ConnectionRole.audience && !excludedConn exclude c &&
          !sendOk c).map Connection.connection_id) := by
  refine ⟨?_, ?_, ?_, ?_⟩
  · exact (broadcast_to_session_loop_spec exclude sendOk _).1
  · exact (broadcast_to_session_loop_spec exclude sendOk _).2
  · exact (broadcast_to_audience_loop_spec exclude sendOk _).1
  · exact (broadcast_to_audience_loop_spec exclude sendOk _).2

/-! ## Audience disconnect teardown (C9) -/

theorem mark_participant_left_spec (parts : List Participant) (pid : Nat)
    (now : Int) :
    ∀ p ∈ mark_participant_left parts pid now, p.id = pid →
      p.left_at = some now ∧ p.connection_id = none := by
  intro p hp hid
  unfold mark_participant_left at hp
  rcases List.mem_map.1 hp with ⟨q, hq, rfl⟩
  by_cases h : q.id = pid
  · simp [h]
  · simp only [if_neg h] at hid ⊢
    exact absurd hid h

/-- C9: when an audience connection disconnects, the teardown emits exactly
one `participant-left` event, carrying that connection's participant id and
a `participant_count` equal to the registry's audience count for the join
code immediately after the removal; the corresponding participant row gets
`left_at` set and its connection correlation cleared. -/
theorem C9_participant_left (reg : Registry) (parts : List Participant)
    (join_code : String) (cid : Nat) (now : Int) (conn : Connection)
    (hdisc : (disconnect reg join_code cid).2 = some conn)
    (hrole : conn.role = ConnectionRole.audience) :
    (websocket_teardown reg parts join_code cid now).events =
      [{ participant_id := conn.participant_id
         participant_count :=
           get_participant_count (disconnect reg join_code cid).1
             join_code }] ∧
    (∀ pid, conn.participant_id = some pid →
      ∀ p ∈ (websocket_teardown reg parts join_code cid now).participants,
        p.id = pid → p.left_at = some now ∧ p.connection_id = none) := by
  unfold websocket_teardown
  simp only [hdisc, hrole, if_true]
  constructor
  · trivial
  · intro pid hpid p hp
    simp only [hpid] at hp
    exact mark_participant_left_spec parts pid now p hp

/-- C9 witness: the concrete audience connection disconnecting from
`regWithAudience` yields exactly one `participant-left` event. -/
theorem C9_participant_left_witness :
    (disconnect regWithAudience "AB2C3D" 1).2 = some audienceConn1 ∧
    (websocket_teardown regWithAudience [participantRow7] "AB2C3D" 1
        50).events =
      [{ participant_id := audienceConn1.participant_id
         participant_count :=
           get_participant_count (disconnect regWithAudience "AB2C3D" 1).1
             "AB2C3D" }] := by
  have h : (disconnect regWithAudience "AB2C3D" 1).2 = some audienceConn1 := by
    decide
  exact ⟨h, (C9_participant_left regWithAudience [participantRow7] "AB2C3D"
    1 50 audienceConn1 h rfl).1⟩

/-! ## Join-code generation and allocation (C7) -/

theorem gen_unique_from_all_collide (db : List Session)
    (choices : Nat → Nat → Fin 31) :
    ∀ fuel k,
      (∀ j, k ≤ j → j < k + fuel →
        check_join_code_exists db (generate_join_code (choices j)) = true) →
      generate_unique_join_code_from db choices k fuel =
        .error .exhaustedRetries := by
  intro fuel
  induction fuel with
  | zero => intro k _; rfl
  | succ n ih =>
    intro k h
    unfold generate_unique_join_code_from
    simp only [h k (le_refl k) (by omega), if_true]
    exact ih (k + 1) fun j hj1 hj2 => h j (by omega) (by omega)

theorem gen_unique_from_first_ok (db : List Session)
    (choices : Nat → Nat → Fin 31) :
    ∀ fuel k i, i < fuel →
      (∀ j, k ≤ j → j < k + i →
        check_join_code_exists db (generate_join_code (choices j)) = true) →
      check_join_code_exists db (generate_join_code (choices (k + i)))
        = false →
      generate_unique_join_code_from db choices k fuel =
        .ok (generate_join_code (choices (k + i))) := by
  intro fuel
  induction fuel with
  | zero => intro k i hi; omega
  | succ n ih =>
    intro k i hi hall hfree
    unfold generate_unique_join_code_from
    rcases Nat.eq_zero_or_pos i with hz | hpos
    · subst hz
      simp only [Nat.add_zero] at hfree
      simp [hfree]
    · have hk : check_join_code_exists db (generate_join_code (choices k))
          = true := hall k (le_refl k) (by omega)
      simp only [hk, if_true]
      have := ih (k + 1) (i - 1) (by omega)
        (fun j hj1 hj2 => hall j (by omega) (by omega))
        (by have : k + 1 + (i - 1) = k + i := by omega
            rw [this]
            exact hfree)
      have harith : k + 1 + (i - 1) = k + i := by omega
      rw [harith] at this
      exact this

/-- C7: every generated join code is exactly 6 characters drawn from the
31-symbol alphabet, which excludes the visually ambiguous characters
`0`, `O`, `1`, `I`, `L`; allocation makes at most 10 draws, each checked
against the store for a collision with a non-ended session, returns the
first collision-free code, and fails with the ExhaustedRetries-style error
after 10 colliding draws. -/
theorem C7_join_codes (db : List Session) (choices : Nat → Nat → Fin 31) :
    (∀ choice : Nat → Fin 31,
      (generate_join_code choice).length = 6 ∧
      ∀ ch ∈ (generate_join_code choice).data, ch ∈ alphabet) ∧
    (alphabet.length = 31 ∧ alphabet.Nodup ∧
      '0' ∉ alphabet ∧ 'O' ∉ alphabet ∧ '1' ∉ alphabet ∧
      'I' ∉ alphabet ∧ 'L' ∉ alphabet) ∧
    ((∀ k, k < 10 →
        check_join_code_exists db (generate_join_code (choices k)) = true) →
      generate_unique_join_code db choices = .error .exhaustedRetries) ∧
    (∀ k, k < 10 →
      (∀ j, j < k →
        check_join_code_exists db (generate_join_code (choices j)) = true) →
      check_join_code_exists db (generate_join_code (choices k)) = false →
      generate_unique_join_code db choices =
        .ok (generate_join_code (choices k))) := by
  refine ⟨?_, by decide, ?_, ?_⟩
  · intro choice
    constructor
    · simp [generate_join_code, String.length]
    · intro ch hch
      simp only [generate_join_code, List.mem_map, List.mem_range] at hch
      rcases hch with ⟨i, _, rfl⟩
      exact List.get_mem alphabet _ _
  · intro h
    exact gen_unique_from_all_collide db choices 10 0
      fun j _ hj2 => h j (by omega)
  · intro k hk hall hfree
    have := gen_unique_from_first_ok db choices 10 0 k (by omega)
      (fun j _ hj2 => hall j (by omega))
      (by simpa using hfree)
    simpa using this

/-- C7 witness: on an empty store the first draw is collision-free, so
allocation returns the 6-character code of the first draw. -/
theorem C7_join_codes_witness :
    (generate_join_code fun _ => (0 : Fin 31)).length = 6 ∧
    generate_unique_join_code [] (fun _ _ => (0 : Fin 31)) =
      .ok (generate_join_code ((fun _ _ => (0 : Fin 31)) 0)) := by
  constructor
  · exact ((C7_join_codes [] fun _ _ => (0 : Fin 31)).1
      (fun _ => (0 : Fin 31))).1
  · exact (C7_join_codes [] fun _ _ => (0 : Fin 31)).2.2.2 0 (by decide)
      (fun j hj => absurd hj (by omega)) (by decide)

/-! ## Session creation (C10) -/

theorem mergeSort_head_min (l : List Slide) (sl : Slide)
    (h : ((l.mergeSort fun a b => a.order_index ≤ b.order_index)).head?
      = some sl) :
    sl ∈ l ∧ ∀ x ∈ l, sl.order_index ≤ x.order_index := by
  have hperm :
      (l.mergeSort fun a b => a.order_index ≤ b.order_index).Perm l :=
    List.mergeSort_perm l _
  have hsorted :
      (l.mergeSort fun a b => a.order_index ≤ b.order_index).Pairwise
        (fun a b => (decide (a.order_index ≤ b.order_index)) = true) :=
    List.sorted_mergeSort
      (fun a b c hab hbc => by
        simp only [decide_eq_true_eq] at *
        omega)
      (fun a b => by
        simp only [Bool.or_eq_true, decide_eq_true_eq]
        omega)
      l
  rcases hcons : l.mergeSort fun a b => a.order_index ≤ b.order_index with
    _ | ⟨a, t⟩
  · rw [hcons] at h
    exact Option.noConfusion h
  · rw [hcons] at h hperm hsorted
    simp only [List.head?_cons, Option.some.injEq] at h
    subst h
    constructor
    · exact hperm.mem_iff.1 (List.mem_cons_self a t)
    · intro x hx
      rcases List.mem_cons.1 (hperm.mem_iff.2 hx) with rfl | hx'
      · exact le_refl _
      · exact of_decide_eq_true (List.rel_of_pairwise_cons hsorted hx')

/-- C10: a successfully created session always starts with status pending,
and its current slide is the slide of the owning presentation with the
smallest `order_index` — or null when the presentation has no slides. -/
theorem C10_create_session (presentations : List Presentation)
    (presentation_id speaker_id : Nat) (db : List Session)
    (choices : Nat → Nat → Fin 31) (new_id : Nat) (now : Int) (s : Session)
    (h : create_session presentations presentation_id speaker_id db choices
      new_id now = .ok s) :
    s.status = SessionStatus.pending ∧
    ∃ p, presentations.find? (fun q =>
        q.id == presentation_id && q.speaker_id == speaker_id) = some p ∧
      (p.slides = [] → s.current_slide_id = none) ∧
      (p.slides ≠ [] → ∃ sl ∈ p.slides, s.current_slide_id = some sl.id ∧
        ∀ sl' ∈ p.slides, sl.order_index ≤ sl'.order_index) := by
  unfold create_session at h
  rcases hfp : presentations.find? (fun q =>
      q.id == presentation_id && q.speaker_id == speaker_id) with _ | p
  · rw [hfp] at h
    exact Except.noConfusion h
  · rw [hfp] at h
    rcases hjc : generate_unique_join_code db choices with e | code
    · rw [hjc] at h
      exact Except.noConfusion h
    · rw [hjc] at h
      simp only [Except.ok.injEq] at h
      subst h
      refine ⟨rfl, p, hfp, ?_, ?_⟩
      · intro hempty
        simp [hempty]
      · intro hne
        have hmsne :
            (p.slides.mergeSort fun a b =>
              a.order_index ≤ b.order_index) ≠ [] := by
          intro hnil
          have hperm2 := List.mergeSort_perm p.slides
            fun a b => decide (a.order_index ≤ b.order_index)
          rw [hnil] at hperm2
          exact hne hperm2.symm.eq_nil
        rcases hhd : (p.slides.mergeSort fun a b =>
            a.order_index ≤ b.order_index).head? with _ | sl
        · exact absurd (List.head?_eq_none_iff.1 hhd) hmsne
        · rcases mergeSort_head_min p.slides sl hhd with ⟨hmem, hmin⟩
          refine ⟨sl, hmem, ?_, hmin⟩
          simp [hhd]

/-- C10 witness: creating a session for `demoPresentation` succeeds and the
created session's status is pending. -/
theorem C10_create_session_witness :
    ∃ s, create_session [demoPresentation] 3 4 []
        (fun _ _ => (0 : Fin 31)) 9 0 = .ok s ∧
      s.status = SessionStatus.pending := by
  refine ⟨_, rfl, (C10_create_session [demoPresentation] 3 4 []
    (fun _ _ => (0 : Fin 31)) 9 0 _ rfl).1⟩

/-! ## Speaker uniqueness (C5) -/

theorem removeFirstConnection_sublist (cid : Nat) (l : List Connection) :
    (removeFirstConnection cid l).1.Sublist l := by
  induction l with
  | nil => exact List.Sublist.refl []
  | cons c rest ih =>
    unfold removeFirstConnection
    by_cases h : c.connection_id = cid
    · simp only [if_pos h]
      exact List.sublist_cons_self c rest
    · simp only [if_neg h]
      exact List.Sublist.cons₂ c ih

theorem speakerCount_append_audience (l : List Connection) (c : Connection)
    (h : c.role = ConnectionRole.audience) :
    speakerCount (l ++ [c]) = speakerCount l := by
  unfold speakerCount
  rw [List.countP_append]
  simp [List.countP_cons, h]

theorem speakerCount_eq_zero_of_no_speaker (l : List Connection)
    (h : l.find? (fun c => c.role == ConnectionRole.speaker) = none) :
    speakerCount l = 0 := by
  unfold speakerCount
  rw [List.countP_eq_zero]
  exact List.find?_eq_none.1 h

/-- Every reachable registry state has at most one speaker connection
under every key. -/
theorem reachable_at_most_one_speaker (reg : Registry)
    (h : ReachableRegistry reg) :
    ∀ code, speakerCount (reg code) ≤ 1 := by
  induction h with
  | init =>
    intro code
    simp [emptyRegistry, speakerCount]
  | step _ hstep ih =>
    cases hstep with
    | joinAudience jc c hrole =>
      intro code
      by_cases hcode : code = upperCode jc
      · simp only [registerConnection, if_pos hcode]
        rw [speakerCount_append_audience _ c hrole]
        exact ih _
      · simp only [registerConnection, if_neg hcode]
        exact ih code
    | joinSpeaker jc cid =>
      intro code
      unfold handle_join_speaker_after_accept
      rcases hsp : get_speaker_connection _ jc with _ | c
      · by_cases hcode : code = upperCode jc
        · simp only [registerConnection, if_pos hcode]
          unfold speakerCount
          rw [List.countP_append]
          have hzero := speakerCount_eq_zero_of_no_speaker _ hsp
          unfold speakerCount get_session_connections at hzero
          rw [hzero]
          simp [List.countP_cons]
        · simp only [registerConnection, if_neg hcode]
          exact ih code
      · exact ih code
    | disc jc cid =>
      intro code
      by_cases hcode : code = upperCode jc
      · simp only [disconnect, if_pos hcode]
        calc speakerCount (removeFirstConnection cid _).1
            ≤ speakerCount _ :=
              List.Sublist.countP_le _
                (removeFirstConnection_sublist cid _)
          _ ≤ 1 := ih _
      · simp only [disconnect, if_neg hcode]
        exact ih code
    | close jc =>
      intro code
      by_cases hcode : code = upperCode jc
      · simp [close_session, if_pos hcode, speakerCount]
      · simp only [close_session, if_neg hcode]
        exact ih code

/-- C5: in every reachable registry state each join code has at most one
speaker connection, and a `join-speaker` attempt while a speaker is
already registered is rejected with `speaker-already-connected`, leaving
the registry exactly as it was. -/
theorem C5_at_most_one_speaker (reg : Registry)
    (h : ReachableRegistry reg) :
    (∀ join_code, speakerCount (get_session_connections reg join_code) ≤ 1) ∧
    (∀ join_code cid c, get_speaker_connection reg join_code = some c →
      (handle_join_speaker_after_accept reg join_code cid).error =
        some .speaker_already_connected ∧
      (handle_join_speaker_after_accept reg join_code cid).registry
        = reg) := by
  constructor
  · intro jc
    exact reachable_at_most_one_speaker reg h (upperCode jc)
  · intro jc cid c hc
    unfold handle_join_speaker_after_accept
    rw [hc]
    exact ⟨rfl, rfl⟩

/-- C5 witness: with speaker connection 1 registered, the count is at most
one and a second `join-speaker` on the same code is rejected. -/
theorem C5_at_most_one_speaker_witness :
    speakerCount (get_session_connections regWithSpeaker "AB2C3D") ≤ 1 ∧
    (handle_join_speaker_after_accept regWithSpeaker "AB2C3D" 2).error =
      some .speaker_already_connected := by
  have hreach : ReachableRegistry regWithSpeaker :=
    ReachableRegistry.step ReachableRegistry.init
      (RegistryStep.joinSpeaker emptyRegistry "AB2C3D" 1)
  have hc : get_speaker_connection regWithSpeaker "AB2C3D" =
      some { connection_id := 1
             role := .speaker
             participant_id := none
             display_name := none } := by decide
  exact ⟨(C5_at_most_one_speaker regWithSpeaker hreach).1 "AB2C3D",
    ((C5_at_most_one_speaker regWithSpeaker hreach).2 "AB2C3D" 2 _ hc).1⟩

end Oratify
